import Mathlib

/-!
Verification of the criteria-to-recommendation scoring engine and static
catalogues of the paradigm-analyzer page (src/app/page.tsx).

The embedding translates the data model and the operations of the source:
the `scenarios` and `criteria` catalogues, `findScenario` (the
`scenarios.find` lookup), the three score counts and the decision chain of
`getRecommendationFromCriteria`, the `recommendation` value guarded by
`selectedCriteria.size > 0`, `toggleCriterion` on the selection set, and
the scenario-select click handler that also hides the comparison view.
Strings are Lean `String`; the JS `Set<string>` selection state is embedded
two ways: as the enumeration order list that `Array.from` produces (for the
scoring pipeline) and as a `Finset String` (for the toggle action, whose
contract is about set membership).
-/

/-- A scenario catalogue record. The source record also carries `title`,
`description`, `requirements`, `reason` and `codeExample`, all opaque display
text that no operation of the program inspects; only `id` (used by the
`scenarios.find` lookup) and `recommendation` (the precomputed paradigm tag,
one of the strings oop / functional / procedural / hybrid in the source's
union type) are modelled. -/
structure Scenario where
  id : String
  recommendation : String
deriving DecidableEq, Repr

/-- The scenario catalogue: the seven records of the `scenarios` array in
source order, each with its `id` and `recommendation` fields. -/
def scenarios : List Scenario :=
  [ ⟨"game-entities", "oop"⟩,
    ⟨"data-transformation", "functional"⟩,
    ⟨"ui-components", "hybrid"⟩,
    ⟨"payment-system", "oop"⟩,
    ⟨"math-utilities", "functional"⟩,
    ⟨"database-models", "oop"⟩,
    ⟨"api-client", "oop"⟩ ]

/-- A criterion catalogue record: `id`, display `label` and `description`,
and the paradigm string `favor` this criterion argues for. -/
structure Criterion where
  id : String
  label : String
  description : String
  favor : String
deriving DecidableEq, Repr

/-- The criteria catalogue: the eight records of the `criteria` array in
source order. -/
def criteria : List Criterion :=
  [ ⟨"state", "Complex State Management",
      "Does each entity need to maintain its own state over time?", "oop"⟩,
    ⟨"polymorphism", "Polymorphic Behavior",
      "Do you need multiple implementations of the same interface/contract?", "oop"⟩,
    ⟨"inheritance", "Shared Behavior via Inheritance",
      "Do entities share common behavior that can be inherited or composed?", "oop"⟩,
    ⟨"encapsulation", "Data + Behavior Encapsulation",
      "Should data and the functions that operate on it be bundled together?", "oop"⟩,
    ⟨"pure", "Pure Transformations",
      "Are operations stateless transformations with no side effects?", "functional"⟩,
    ⟨"composition", "Function Composition",
      "Can the solution be built by composing small, independent functions?", "functional"⟩,
    ⟨"immutability", "Immutability Important",
      "Is immutable data flow critical to prevent bugs?", "functional"⟩,
    ⟨"simple", "Simple Utilities",
      "Are these simple utility functions without complex relationships?", "procedural"⟩ ]

/-- Scenario lookup: `scenarios.find(s => s.id === selectedScenario)`.
`Array.prototype.find` returns the first match or `undefined`, embedded as
`Option`. -/
def findScenario (id : String) : Option Scenario :=
  scenarios.find? (fun s => s.id == id)

/-- The `oopScore` count: the number of selected ids whose criterion lookup
yields `favor === 'oop'`. `criterion?.favor === 'oop'` is `false` when the
lookup fails, embedded by the `none` match arm. `sel` is the list that
`Array.from(selectedCriteria)` enumerates. -/
def oopScore (sel : List String) : Nat :=
  (sel.filter (fun id =>
    match criteria.find? (fun c => c.id == id) with
    | some c => c.favor == "oop"
    | none => false)).length

/-- The `functionalScore` count, analogous to `oopScore`. -/
def functionalScore (sel : List String) : Nat :=
  (sel.filter (fun id =>
    match criteria.find? (fun c => c.id == id) with
    | some c => c.favor == "functional"
    | none => false)).length

/-- The `proceduralScore` count, analogous to `oopScore`. -/
def proceduralScore (sel : List String) : Nat :=
  (sel.filter (fun id =>
    match criteria.find? (fun c => c.id == id) with
    | some c => c.favor == "procedural"
    | none => false)).length

/-- The result object `{ paradigm, color }` returned by
`getRecommendationFromCriteria`. -/
structure RecResult where
  paradigm : String
  color : String
deriving DecidableEq, Repr

/-- The decision chain of `getRecommendationFromCriteria`: the four-branch
`if / else if / else if / else` over the three scores, with the source's
hex color literals. -/
def getRecommendationFromCriteria (sel : List String) : RecResult :=
  if oopScore sel > functionalScore sel ∧ oopScore sel > proceduralScore sel then
    ⟨"Object-Oriented", "#3b82f6"⟩
  else if functionalScore sel > oopScore sel then
    ⟨"Functional", "#10b981"⟩
  else if proceduralScore sel > 0 ∧ proceduralScore sel ≥ oopScore sel then
    ⟨"Procedural", "#f59e0b"⟩
  else
    ⟨"Hybrid Approach", "#8b5cf6"⟩

/-- The `recommendation` value:
`selectedCriteria.size > 0 ? getRecommendationFromCriteria() : null`.
For a JS `Set`, `size` is the length of its enumeration list. -/
def recommendation (sel : List String) : Option RecResult :=
  if 0 < sel.length then some (getRecommendationFromCriteria sel) else none

/-- The `toggleCriterion` action on the selection set: copy the set, delete
`id` if present, else add it (the copy then replaces the state). Embedded on
`Finset String`, the set abstraction of the JS `Set`. -/
def toggleCriterion (id : String) (s : Finset String) : Finset String :=
  if id ∈ s then s.erase id else insert id s

/-- The mutable state of the `Home` component: `selectedScenario`,
`selectedCriteria` and `showComparison`. -/
structure HomeState where
  selectedScenario : String
  selectedCriteria : Finset String
  showComparison : Bool

/-- The scenario button click handler:
`setSelectedScenario(s.id); setShowComparison(false);`. -/
def selectScenario (id : String) (st : HomeState) : HomeState :=
  { st with selectedScenario := id, showComparison := false }

/-- The decision policy as §4.2 step 3 of the spec words it, as a function
of the three counts, to be compared with the source's decision chain. -/
def specDecisionPolicy (o f p : Nat) : RecResult :=
  if o > f ∧ o > p then ⟨"Object-Oriented", "#3b82f6"⟩
  else if f > o then ⟨"Functional", "#10b981"⟩
  else if p > 0 ∧ p ≥ o then ⟨"Procedural", "#f59e0b"⟩
  else ⟨"Hybrid Approach", "#8b5cf6"⟩

/-- The source decision chain coincides with the spec-worded policy applied
to the three counts. -/
theorem getRec_eq_spec (sel : List String) :
    getRecommendationFromCriteria sel =
      specDecisionPolicy (oopScore sel) (functionalScore sel) (proceduralScore sel) := rfl

example : recommendation ["state", "polymorphism"] = some ⟨"Object-Oriented", "#3b82f6"⟩ := by decide
example : recommendation ["pure", "composition", "immutability"] = some ⟨"Functional", "#10b981"⟩ := by decide
example : recommendation ["simple"] = some ⟨"Procedural", "#f59e0b"⟩ := by decide
example : recommendation ["state", "pure"] = some ⟨"Hybrid Approach", "#8b5cf6"⟩ := by decide

/-- Claim C1: for every non-empty selection, the engine evaluates the rules
of §4.2 step 3 in that exact order, first match winning; in particular when
`functionalScore > oopScore` the result is Functional regardless of
`proceduralScore`. -/
theorem rec_c1 (sel : List String) (h : sel ≠ []) :
    recommendation sel =
      some (specDecisionPolicy (oopScore sel) (functionalScore sel) (proceduralScore sel)) ∧
    (functionalScore sel > oopScore sel →
      recommendation sel = some ⟨"Functional", "#10b981"⟩) := by
  have hl : 0 < sel.length := List.length_pos.mpr h
  constructor
  · unfold recommendation
    rw [if_pos hl]
    exact congrArg some (getRec_eq_spec sel)
  · intro hf
    have h1 : ¬(oopScore sel > functionalScore sel ∧ oopScore sel > proceduralScore sel) :=
      fun hc => absurd hc.1 (Nat.lt_asymm hf)
    unfold recommendation
    rw [if_pos hl]
    unfold getRecommendationFromCriteria
    rw [if_neg h1, if_pos hf]

/-- Witness for C1 at the singleton selection of the functional-favoring
criterion id pure. -/
theorem rec_c1_witness :
    recommendation ["pure"] =
      some (specDecisionPolicy (oopScore ["pure"]) (functionalScore ["pure"])
        (proceduralScore ["pure"])) ∧
    (functionalScore ["pure"] > oopScore ["pure"] →
      recommendation ["pure"] = some ⟨"Functional", "#10b981"⟩) :=
  rec_c1 ["pure"] (by decide)

/-- Claim C2 counterexample: the selection of state, pure and simple has all
three counts equal to 1, yet the engine yields Procedural — not the Hybrid
Approach the claim asserts for all-equal positive ties. -/
theorem rec_c2_counterexample :
    oopScore ["state", "pure", "simple"] = 1 ∧
    functionalScore ["state", "pure", "simple"] = 1 ∧
    proceduralScore ["state", "pure", "simple"] = 1 ∧
    recommendation ["state", "pure", "simple"] = some ⟨"Procedural", "#f59e0b"⟩ ∧
    recommendation ["state", "pure", "simple"] ≠ some ⟨"Hybrid Approach", "#8b5cf6"⟩ := by
  decide

/-- Claim C2 as amended: when the three counts are all equal and positive,
the procedural rule (proceduralScore > 0 and proceduralScore ≥ oopScore)
fires, so the result is Procedural, not Hybrid Approach. -/
theorem rec_c2_amended (sel : List String)
    (h1 : oopScore sel = functionalScore sel)
    (h2 : functionalScore sel = proceduralScore sel)
    (h3 : 0 < proceduralScore sel) :
    recommendation sel = some ⟨"Procedural", "#f59e0b"⟩ := by
  have hle : proceduralScore sel ≤ sel.length := List.length_filter_le _ sel
  have hl : 0 < sel.length := Nat.lt_of_lt_of_le h3 hle
  have hno : ¬(oopScore sel > functionalScore sel ∧ oopScore sel > proceduralScore sel) := by
    omega
  have hnf : ¬(functionalScore sel > oopScore sel) := by omega
  have hp : proceduralScore sel > 0 ∧ proceduralScore sel ≥ oopScore sel := by omega
  unfold recommendation
  rw [if_pos hl]
  unfold getRecommendationFromCriteria
  rw [if_neg hno, if_neg hnf, if_pos hp]

/-- Witness for the amended C2 at the all-equal positive tie of state, pure
and simple. -/
theorem rec_c2_amended_witness :
    recommendation ["state", "pure", "simple"] = some ⟨"Procedural", "#f59e0b"⟩ :=
  rec_c2_amended ["state", "pure", "simple"] (by decide) (by decide) (by decide)

/-- Claim C3: the empty selection yields no recommendation, and only the
empty selection does. -/
theorem rec_c3 :
    recommendation [] = none ∧
    ∀ sel : List String, recommendation sel = none ↔ sel = [] := by
  refine ⟨rfl, ?_⟩
  intro sel
  cases sel with
  | nil => simp [recommendation]
  | cons a l => simp [recommendation]

/-- Claim C4 counterexample: zzz is no catalogue criterion id, yet adding it
to the EMPTY selection changes the outcome from none to a Hybrid Approach
recommendation, so `recommend(S union id) = recommend(S)` fails at S = ∅. -/
theorem rec_c4_counterexample :
    "zzz" ∉ criteria.map Criterion.id ∧
    recommendation [] = none ∧
    recommendation ["zzz"] = some ⟨"Hybrid Approach", "#8b5cf6"⟩ ∧
    recommendation ["zzz"] ≠ recommendation [] := by decide

/-- Claim C4 as amended: an id matching no catalogue criterion contributes
to none of the three counts, and for every NON-EMPTY selection adding it
leaves the recommendation unchanged (for the empty selection the addition
turns the none outcome into a Hybrid Approach recommendation, since the
guard is emptiness of the selection, not of the recognized part). -/
theorem rec_c4_amended (id : String) (sel : List String)
    (h1 : ∀ c ∈ criteria, c.id ≠ id) (h2 : sel ≠ []) :
    oopScore (id :: sel) = oopScore sel ∧
    functionalScore (id :: sel) = functionalScore sel ∧
    proceduralScore (id :: sel) = proceduralScore sel ∧
    recommendation (id :: sel) = recommendation sel := by
  have hfind : criteria.find? (fun c => c.id == id) = none :=
    List.find?_eq_none.mpr (fun c hc hb => h1 c hc (eq_of_beq hb))
  have ho : oopScore (id :: sel) = oopScore sel := by
    simp [oopScore, List.filter_cons, hfind]
  have hf : functionalScore (id :: sel) = functionalScore sel := by
    simp [functionalScore, List.filter_cons, hfind]
  have hp : proceduralScore (id :: sel) = proceduralScore sel := by
    simp [proceduralScore, List.filter_cons, hfind]
  have hl1 : 0 < (id :: sel).length := by simp
  have hl2 : 0 < sel.length := List.length_pos.mpr h2
  refine ⟨ho, hf, hp, ?_⟩
  unfold recommendation
  rw [if_pos hl1, if_pos hl2]
  unfold getRecommendationFromCriteria
  rw [ho, hf, hp]

/-- Witness for the amended C4: adding the unrecognized id zzz to the
oop-favoring singleton of state changes nothing. -/
theorem rec_c4_amended_witness :
    oopScore ["zzz", "state"] = oopScore ["state"] ∧
    functionalScore ["zzz", "state"] = functionalScore ["state"] ∧
    proceduralScore ["zzz", "state"] = proceduralScore ["state"] ∧
    recommendation ["zzz", "state"] = recommendation ["state"] :=
  rec_c4_amended "zzz" ["state"] (by decide) (by decide)

/-- Claim C5: the engine is a total function of the selection set alone —
two enumerations of the same set of ids (duplicate-free lists with the same
members) yield the same optional paradigm-and-color result. -/
theorem rec_c5 (l1 l2 : List String) (h1 : l1.Nodup) (h2 : l2.Nodup)
    (h3 : ∀ x, x ∈ l1 ↔ x ∈ l2) :
    recommendation l1 = recommendation l2 := by
  have hperm : l1.Perm l2 := (List.perm_ext_iff_of_nodup h1 h2).mpr h3
  have ho : oopScore l1 = oopScore l2 := by
    unfold oopScore
    exact (hperm.filter _).length_eq
  have hf : functionalScore l1 = functionalScore l2 := by
    unfold functionalScore
    exact (hperm.filter _).length_eq
  have hp : proceduralScore l1 = proceduralScore l2 := by
    unfold proceduralScore
    exact (hperm.filter _).length_eq
  have hl : l1.length = l2.length := hperm.length_eq
  unfold recommendation getRecommendationFromCriteria
  rw [ho, hf, hp, hl]

/-- Witness for C5 at the two enumeration orders of the set of state and
pure. -/
theorem rec_c5_witness :
    recommendation ["state", "pure"] = recommendation ["pure", "state"] :=
  rec_c5 ["state", "pure"] ["pure", "state"] (by decide) (by decide)
    (by intro x; simp [List.mem_cons]; tauto)

/-- Claim C6: every produced recommendation is one of the four fixed
paradigm-color pairs — Object-Oriented with blue #3b82f6, Functional with
green #10b981, Procedural with amber #f59e0b, Hybrid Approach with purple
#8b5cf6. -/
theorem rec_c6 (sel : List String) (r : RecResult) (h : recommendation sel = some r) :
    r = ⟨"Object-Oriented", "#3b82f6"⟩ ∨ r = ⟨"Functional", "#10b981"⟩ ∨
    r = ⟨"Procedural", "#f59e0b"⟩ ∨ r = ⟨"Hybrid Approach", "#8b5cf6"⟩ := by
  unfold recommendation at h
  split at h
  · unfold getRecommendationFromCriteria at h
    split at h
    · exact Or.inl (Option.some.inj h).symm
    · split at h
      · exact Or.inr (Or.inl (Option.some.inj h).symm)
      · split at h
        · exact Or.inr (Or.inr (Or.inl (Option.some.inj h).symm))
        · exact Or.inr (Or.inr (Or.inr (Option.some.inj h).symm))
  · simp at h

/-- Witness for C6 at the oop-favoring singleton of state, whose result is
the Object-Oriented blue pair. -/
theorem rec_c6_witness :
    (⟨"Object-Oriented", "#3b82f6"⟩ : RecResult) = ⟨"Object-Oriented", "#3b82f6"⟩ ∨
    (⟨"Object-Oriented", "#3b82f6"⟩ : RecResult) = ⟨"Functional", "#10b981"⟩ ∨
    (⟨"Object-Oriented", "#3b82f6"⟩ : RecResult) = ⟨"Procedural", "#f59e0b"⟩ ∨
    (⟨"Object-Oriented", "#3b82f6"⟩ : RecResult) = ⟨"Hybrid Approach", "#8b5cf6"⟩ :=
  rec_c6 ["state"] ⟨"Object-Oriented", "#3b82f6"⟩ (by decide)

/-- Claim C7: scenario lookup by an id present in the catalogue returns the
record whose id field equals the queried id, and by an id absent from the
catalogue returns nothing; the lookup is a total function. -/
theorem cat_c7 (id1 id2 : String)
    (h1 : id1 ∈ scenarios.map Scenario.id) (h2 : id2 ∉ scenarios.map Scenario.id) :
    (findScenario id1).map Scenario.id = some id1 ∧ findScenario id2 = none := by
  constructor
  · have h1' : id1 = "game-entities" ∨ id1 = "data-transformation" ∨
        id1 = "ui-components" ∨ id1 = "payment-system" ∨ id1 = "math-utilities" ∨
        id1 = "database-models" ∨ id1 = "api-client" := by
      simpa [scenarios] using h1
    rcases h1' with h | h | h | h | h | h | h <;> subst h <;> decide
  · unfold findScenario
    exact List.find?_eq_none.mpr (fun s hs hb =>
      h2 (List.mem_map.mpr ⟨s, hs, eq_of_beq hb⟩))

/-- Witness for C7 at the catalogue id game-entities and the absent id
unknown-id. -/
theorem cat_c7_witness :
    (findScenario "game-entities").map Scenario.id = some "game-entities" ∧
    findScenario "unknown-id" = none :=
  cat_c7 "game-entities" "unknown-id" (by decide) (by decide)

/-- Claim C8: the static catalogues satisfy their data invariants — scenario
ids are pairwise distinct and every scenario recommendation is one of the
four paradigm tags; criterion ids are pairwise distinct and every criterion
favor is one of the three paradigm tags (hybrid never appears as a favor). -/
theorem cat_c8 :
    (scenarios.map Scenario.id).Nodup ∧
    (∀ s ∈ scenarios, s.recommendation ∈ ["oop", "functional", "procedural", "hybrid"]) ∧
    (criteria.map Criterion.id).Nodup ∧
    (∀ c ∈ criteria, c.favor ∈ ["oop", "functional", "procedural"]) := by decide

/-- Witness for C8 at the first record of each catalogue. -/
theorem cat_c8_witness :
    "oop" ∈ (["oop", "functional", "procedural", "hybrid"] : List String) ∧
    "oop" ∈ (["oop", "functional", "procedural"] : List String) :=
  ⟨cat_c8.2.1 ⟨"game-entities", "oop"⟩ (by decide),
   cat_c8.2.2.2 ⟨"state", "Complex State Management",
      "Does each entity need to maintain its own state over time?", "oop"⟩ (by decide)⟩

/-- Claim C9: toggling a criterion id flips exactly that id's membership in
the selection set, leaves every other id's membership unchanged, and
applied twice restores the original set. -/
theorem ui_c9 (S : Finset String) (x : String) :
    (x ∈ toggleCriterion x S ↔ x ∉ S) ∧
    (∀ y, y ≠ x → (y ∈ toggleCriterion x S ↔ y ∈ S)) ∧
    toggleCriterion x (toggleCriterion x S) = S := by
  by_cases h : x ∈ S
  · refine ⟨?_, ?_, ?_⟩
    · simp [toggleCriterion, h]
    · intro y hy
      simp [toggleCriterion, h, Finset.mem_erase, hy]
    · unfold toggleCriterion
      rw [if_pos h]
      rw [if_neg (Finset.not_mem_erase x S)]
      exact Finset.insert_erase h
  · refine ⟨?_, ?_, ?_⟩
    · simp [toggleCriterion, h]
    · intro y hy
      simp [toggleCriterion, h, Finset.mem_insert, hy]
    · unfold toggleCriterion
      rw [if_neg h]
      rw [if_pos (Finset.mem_insert_self x S)]
      exact Finset.erase_insert h

/-- Witness for C9: toggling pure on the singleton set of state adds pure,
keeps state, and toggling twice restores the singleton. -/
theorem ui_c9_witness :
    (("pure" ∈ toggleCriterion "pure" {"state"}) ↔ "pure" ∉ ({"state"} : Finset String)) ∧
    (("state" ∈ toggleCriterion "pure" {"state"}) ↔ "state" ∈ ({"state"} : Finset String)) ∧
    toggleCriterion "pure" (toggleCriterion "pure" {"state"}) = {"state"} :=
  ⟨(ui_c9 {"state"} "pure").1,
   (ui_c9 {"state"} "pure").2.1 "state" (by decide),
   (ui_c9 {"state"} "pure").2.2⟩

/-- Claim C10: selecting a scenario always resets the comparison view to
hidden and leaves the selected-criteria set untouched (it also records the
clicked scenario id). -/
theorem ui_c10 (st : HomeState) (id : String) :
    (selectScenario id st).showComparison = false ∧
    (selectScenario id st).selectedCriteria = st.selectedCriteria ∧
    (selectScenario id st).selectedScenario = id :=
  ⟨rfl, rfl, rfl⟩
